import Mathlib

/-!
Verification development for the auth-service credential lifecycle
(source: src/backend/auth-service/src/routes/auth_routes.py).

The route handlers are embedded from the source file. The collaborating
services (AuthService, Validator, the SQLAlchemy session) are not part of
the provided sources; their definitions below are modelled from the
specification and are marked as such. Timestamps are naturals, tokens are
the signed structures the specification describes, and the credential
store is an explicit record of lists threaded through every operation.
-/

/-- A role record: name, description and a flat permission string,
as created by the init-admin route in the source. -/
structure Role where
  name : String
  description : String
  permissions : String
deriving DecidableEq

/-- A user record, per the data model: identity, password hash, active
flag, optional reset token and expiry, last-login, and assigned role
names. -/
structure User where
  id : Nat
  email : String
  username : String
  password_hash : String
  is_active : Bool
  password_reset_token : Option String
  password_reset_expires_at : Option Nat
  last_login : Option Nat
  roles : List String
deriving DecidableEq

/-- A persisted refresh-token record keyed by jti, with its owning user
and the monotonic revoked flag. -/
structure RefreshTokenRecord where
  jti : String
  user_id : Nat
  user_agent : Option String
  ip_address : Option String
  is_revoked : Bool
deriving DecidableEq

/-- The credential store: users, refresh-token records and roles. -/
structure Db where
  users : List User
  refresh_tokens : List RefreshTokenRecord
  roles : List Role
deriving DecidableEq

/-- Modelled from the spec: the signed access token is a stateless
structure carrying user id, username, role names, issued-at and expiry. -/
structure AccessTok where
  user_id : Nat
  username : String
  roles : List String
  iat : Nat
  exp : Nat
deriving DecidableEq

/-- Modelled from the spec: the signed refresh token is a structure
carrying a freshly generated jti, the user id and an expiry. -/
structure RefreshTok where
  jti : String
  user_id : Nat
  exp : Nat
deriving DecidableEq

/-- Modelled from the spec: AuthService.get_user_by_email is a store
lookup by exact email. -/
def get_user_by_email (db : Db) (email : String) : Option User :=
  db.users.find? (fun u => u.email == email)

/-- Modelled from the spec: find_user_by_reset_token is a store lookup by
exact reset-token match, as the reset route's query does. -/
def find_user_by_reset_token (db : Db) (token : String) : Option User :=
  db.users.find? (fun u => u.password_reset_token == some token)

/-- Store lookup of a refresh record by jti. -/
def find_refresh_record (db : Db) (jti : String) : Option RefreshTokenRecord :=
  db.refresh_tokens.find? (fun r => r.jti == jti)

/-- Store lookup of a user by id. -/
def find_user_by_id (db : Db) (uid : Nat) : Option User :=
  db.users.find? (fun u => u.id == uid)

/-- Modelled from the spec: AuthService.hash_password is a one-way
function; the model uses a fixed injective tagging, which suffices for
every claim here (no claim depends on salting). -/
def hash_password (pw : String) : String :=
  "pbkdf2$" ++ pw

/-- Modelled from the spec: AuthService.verify_password checks a
plaintext against a stored digest. -/
def verify_password (pw : String) (digest : String) : Bool :=
  digest == hash_password pw

/-- Modelled from the spec: AuthService.generate_tokens mints the access
and refresh structures for a user; the fresh jti is passed in explicitly
(the source draws it from a generator). -/
def generate_tokens (u : User) (jti : String) (now : Nat) : AccessTok × RefreshTok :=
  ({ user_id := u.id, username := u.username, roles := u.roles,
     iat := now, exp := now + 15 },
   { jti := jti, user_id := u.id, exp := now + 10080 })

/-- Modelled from the spec: AuthService.store_refresh_token inserts a
fresh unrevoked record for the user. -/
def store_refresh_token (db : Db) (u : User) (jti : String)
    (ua ip : Option String) : Db :=
  { db with refresh_tokens :=
      db.refresh_tokens ++
        [{ jti := jti, user_id := u.id, user_agent := ua,
           ip_address := ip, is_revoked := false }] }

/-- Modelled from the spec: AuthService.revoke_refresh_token sets the
revoked flag on every stored record with the given jti. -/
def revoke_refresh_token (db : Db) (jti : String) : Db :=
  { db with refresh_tokens :=
      db.refresh_tokens.map fun r =>
        if r.jti == jti then { r with is_revoked := true } else r }

/-- Modelled from the spec: AuthService.update_last_login stamps the
user's last-login field. -/
def update_last_login (db : Db) (u : User) (now : Nat) : Db :=
  { db with users :=
      db.users.map fun v =>
        if v.id == u.id then { v with last_login := some now } else v }

/-- Typed rejection reasons of the refresh rotation engine. -/
inductive RotateReject where
  | expiredOrMalformed
  | unknown
  | alreadyRevoked
deriving DecidableEq

/-- Outcome of validating a presented refresh token. -/
inductive ValidateOutcome where
  | ok (u : User) (jti : String)
  | rejected (r : RotateReject)
deriving DecidableEq

/-- Modelled from the spec: AuthService.validate_refresh_token checks the
presented token structurally (expiry), looks up its jti in the store,
rejects revoked records, and resolves the owning user. -/
def validate_refresh_token (db : Db) (tok : RefreshTok) (now : Nat) :
    ValidateOutcome :=
  if tok.exp < now then .rejected .expiredOrMalformed
  else
    match find_refresh_record db tok.jti with
    | none => .rejected .unknown
    | some rec =>
      if rec.is_revoked then .rejected .alreadyRevoked
      else
        match find_user_by_id db rec.user_id with
        | none => .rejected .unknown
        | some u => .ok u tok.jti

/-- Result of the login route, one constructor per return site in the
source handler. -/
inductive LoginResult where
  | missingFields
  | invalidCredentials
  | success (access : AccessTok) (refresh : RefreshTok)
      (uid : String) (username : String) (email : String) (roles : List String)
deriving DecidableEq

/-- The login route handler, embedded from auth_routes.py lines 42-95:
missing fields give a 400; a missing or inactive user and a wrong
password all give the one generic 401; success mints tokens, stores the
refresh record and stamps last login. -/
def login_route (db : Db) (email pw : String) (jti : String) (now : Nat)
    (ua ip : Option String) : LoginResult × Db :=
  if email == "" || pw == "" then (.missingFields, db)
  else
    match get_user_by_email db email with
    | none => (.invalidCredentials, db)
    | some u =>
      if !u.is_active then (.invalidCredentials, db)
      else if !verify_password pw u.password_hash then (.invalidCredentials, db)
      else
        let tks := generate_tokens u jti now
        let db1 := store_refresh_token db u jti ua ip
        let db2 := update_last_login db1 u now
        (.success tks.1 tks.2 (toString u.id) u.username u.email u.roles, db2)

/-- Result of the refresh route, one constructor per return site in the
source handler. -/
inductive RefreshResult where
  | missingToken
  | invalidToken
  | success (access : AccessTok) (refresh : RefreshTok)
deriving DecidableEq

/-- The refresh route handler, embedded from auth_routes.py lines 97-140:
validate the presented token, map any rejection to the one generic 401,
otherwise revoke the old jti, mint and store new tokens, stamp last
login. -/
def refresh_route (db : Db) (tok? : Option RefreshTok) (newJti : String)
    (now : Nat) (ua ip : Option String) : RefreshResult × Db :=
  match tok? with
  | none => (.missingToken, db)
  | some tok =>
    match validate_refresh_token db tok now with
    | .rejected _ => (.invalidToken, db)
    | .ok u jti =>
      let db1 := revoke_refresh_token db jti
      let tks := generate_tokens u newJti now
      let db2 := store_refresh_token db1 u newJti ua ip
      let db3 := update_last_login db2 u now
      (.success tks.1 tks.2, db3)

/-- Modelled from the spec: Validator.validate_password is the pluggable
strength validator; the concrete instance here accepts passwords of at
least eight characters. No claim depends on the policy itself, only on
where the route consults it. -/
def validate_password (pw : String) : Bool × String :=
  if pw.length < 8 then (false, "Password must be at least 8 characters long")
  else (true, "")

/-- Result of the reset-password route, one constructor per return site
in the source handler. -/
inductive ResetResult where
  | missingFields
  | weakPassword (msg : String)
  | invalidToken
  | expiredToken
  | success
  | serverError
deriving DecidableEq

/-- The persisted effect of the reset cascade, applied by the single
commit in the source handler: replace the matched user's password hash,
clear the reset token and expiry, and revoke every refresh record owned
by that user. -/
def commit_reset (db : Db) (u : User) (pw : String) : Db :=
  { db with
    users := db.users.map fun v =>
      if v.id == u.id then
        { v with password_hash := hash_password pw,
                 password_reset_token := none,
                 password_reset_expires_at := none }
      else v,
    refresh_tokens := db.refresh_tokens.map fun r =>
      if r.user_id == u.id then { r with is_revoked := true } else r }

/-- The reset-password route handler, embedded from auth_routes.py lines
142-190, with a fault flag modelling an exception thrown anywhere in the
cascade before the single commit. In the source every mutation is staged
on the session and persisted only by the one commit on line 182; closing
the session without committing discards the staged changes (modelled from
the spec's atomicity requirement and the session semantics, which are not
part of the provided sources), so a fault leaves the store unchanged and
reaches the generic 500 handler. Note the source checks password strength
before looking up the reset token. -/
def reset_password_route_f (db : Db) (token new_password : String)
    (now : Nat) (fault : Bool) : ResetResult × Db :=
  if token == "" || new_password == "" then (.missingFields, db)
  else if !(validate_password new_password).1 then
    (.weakPassword (validate_password new_password).2, db)
  else
    match find_user_by_reset_token db token with
      | none => (.invalidToken, db)
      | some u =>
        match u.password_reset_expires_at with
        | none => (.expiredToken, db)
        | some e =>
          if e < now then (.expiredToken, db)
          else if fault then (.serverError, db)
          else (.success, commit_reset db u new_password)

/-- The reset-password route on the fault-free path. -/
def reset_password_route (db : Db) (token new_password : String)
    (now : Nat) : ResetResult × Db :=
  reset_password_route_f db token new_password now false

/-- Modelled from the spec: Validator.validate_registration_data checks
the request shape (presence of email, username and password). -/
def validate_registration_data (email username pw : String) :
    Bool × List String :=
  let errs :=
    (if email == "" then ["Email is required"] else []) ++
    (if username == "" then ["Username is required"] else []) ++
    (if pw == "" then ["Password is required"] else [])
  (errs.isEmpty, errs)

/-- The next fresh user id for an insert. -/
def next_id (db : Db) : Nat :=
  db.users.foldl (fun m u => max m u.id) 0 + 1

/-- Modelled from the spec: AuthService.create_user inserts a new user;
the store enforces the global uniqueness of email and username (the
spec's data-model invariant), so an insert that would duplicate either
raises instead of committing. -/
def insert_user (db : Db) (email username pw : String) :
    Except Unit (User × Db) :=
  if db.users.any (fun u => u.email == email || u.username == username) then
    .error ()
  else
    let u : User :=
      { id := next_id db, email := email, username := username,
        password_hash := hash_password pw, is_active := true,
        password_reset_token := none, password_reset_expires_at := none,
        last_login := none, roles := [] }
    .ok (u, { db with users := db.users ++ [u] })

/-- Modelled from the spec: AuthService.assign_role_to_user adds a role
name to the user's assigned roles. -/
def assign_role_to_user (db : Db) (u : User) (role : String) : Db :=
  { db with users := db.users.map fun v =>
      if v.id == u.id then { v with roles := v.roles ++ [role] } else v }

/-- Result of the register route, one constructor per return site in the
source handler; storeFailure is an exception escaping the handler (the
handler has no except branch). -/
inductive RegisterResult where
  | validationError (errors : List String)
  | userExists
  | created (uid : String)
  | storeFailure
deriving DecidableEq

/-- The register route handler, embedded from auth_routes.py lines 12-40:
validate the payload, reject when a user with the email already exists,
then create the user and assign the default role. The handler itself
never checks the username. -/
def register_route (db : Db) (email username pw : String) :
    RegisterResult × Db :=
  if !(validate_registration_data email username pw).1 then
    (.validationError (validate_registration_data email username pw).2, db)
  else
    match get_user_by_email db email with
    | some _ => (.userExists, db)
    | none =>
      match insert_user db email username pw with
      | .error _ => (.storeFailure, db)
      | .ok (u, db1) => (.created (toString u.id), assign_role_to_user db1 u "user")

/-- Result of the init-admin route, one constructor per return site in
the source handler. -/
inductive InitAdminResult where
  | invalidKey
  | adminUpdated (uid : String)
  | adminCreated (uid : String) (cred_email cred_password : String)
  | initFailure
deriving DecidableEq

/-- Store lookup of a role by name. -/
def find_role (db : Db) (name : String) : Option Role :=
  db.roles.find? (fun r => r.name == name)

/-- Adds a role record when none with the name exists, as the init-admin
route does for the admin and user roles. -/
def ensure_role (db : Db) (name descr perms : String) : Db :=
  match find_role db name with
  | some _ => db
  | none => { db with roles := db.roles ++ [{ name := name, description := descr, permissions := perms }] }

/-- The init-admin route handler, embedded from auth_routes.py lines
192-275: check the setup key, ensure the admin and user roles exist,
then either grant the admin role to the existing admin user or create a
fresh one; the creation response echoes the admin email and the supplied
or default plaintext password in its credentials object. A store fault
during user creation hits the except branch, which rolls back (the role
upsert was already committed separately). -/
def init_admin_route (db : Db) (setup_key admin_setup_key : String)
    (email? username? password? : Option String) : InitAdminResult × Db :=
  if setup_key == "" || setup_key != admin_setup_key then (.invalidKey, db)
  else
    let db1 := ensure_role db "admin" "Administrator role"
      "create_user,read_user,update_user,delete_user,manage_roles"
    let db2 := ensure_role db1 "user" "Regular user role" "read_self,update_self"
    let admin_email := email?.getD "admin@example.com"
    match get_user_by_email db2 admin_email with
    | some ex =>
      if "admin" ∈ ex.roles then (.adminUpdated (toString ex.id), db2)
      else (.adminUpdated (toString ex.id), assign_role_to_user db2 ex "admin")
    | none =>
      let pw := password?.getD "AdminPass123!"
      match insert_user db2 admin_email (username?.getD "admin") pw with
      | .error _ => (.initFailure, db2)
      | .ok (u, db3) =>
        (.adminCreated (toString u.id) admin_email pw,
         assign_role_to_user db3 u "admin")

/-- The user-visible error message of a login result, as the literal
strings of the source return sites. -/
def login_msg : LoginResult → Option String
  | .missingFields => some "Email and password are required"
  | .invalidCredentials => some "Invalid credentials"
  | .success _ _ _ _ _ _ => none

/-- The user-visible error message of a refresh result. -/
def refresh_msg : RefreshResult → Option String
  | .missingToken => some "Refresh token is required"
  | .invalidToken => some "Invalid or expired refresh token"
  | .success _ _ => none

/-- The user-visible error message of a reset result. -/
def reset_msg : ResetResult → Option String
  | .missingFields => some "Token and new password are required"
  | .weakPassword m => some m
  | .invalidToken => some "Invalid or expired token"
  | .expiredToken => some "Reset token has expired"
  | .success => none
  | .serverError => some "An error occurred processing your request"

/-- Every string occurring in the JSON payload of a login response. -/
def login_strings : LoginResult → List String
  | .missingFields => ["Email and password are required"]
  | .invalidCredentials => ["Invalid credentials"]
  | .success a rt uid un em roles =>
      ["access_token", "refresh_token", uid, un, em] ++ roles ++
        [a.username] ++ a.roles ++ [rt.jti]

/-- Every string occurring in the JSON payload of a register response. -/
def register_strings : RegisterResult → List String
  | .validationError errs => errs
  | .userExists => ["User already exists"]
  | .created uid => ["User created successfully", uid]
  | .storeFailure => []

/-- Every string occurring in the JSON payload of a reset response. -/
def reset_strings (r : ResetResult) : List String :=
  match reset_msg r with
  | some m => [m]
  | none => ["Password has been reset successfully"]

/-- Every string occurring in the JSON payload of an init-admin
response; the creation payload carries the plaintext credentials. -/
def init_admin_strings : InitAdminResult → List String
  | .invalidKey => ["Invalid setup key"]
  | .adminUpdated uid =>
      ["Admin user already exists and has been updated with admin role", uid]
  | .adminCreated uid em pw =>
      ["Admin user and roles created successfully", uid, em, pw]
  | .initFailure => ["An error occurred"]

/-- Local state of one in-flight refresh request: before the validate
call, between validate and the write-back phase, or finished with a
response. -/
inductive TState where
  | start
  | validated (o : ValidateOutcome)
  | done (r : RefreshResult)
deriving DecidableEq

/-- One scheduler step of an in-flight refresh request against the
shared store, at the granularity of the source handler's store calls:
the validate call reads, then the remainder (revoke, store new record,
stamp last login, respond) runs. Collapsing the write-back phase into a
single atomic step only makes the code more atomic than it is, so any
interleaving anomaly exhibited at this granularity is real. -/
def thread_step (tok : RefreshTok) (newJti : String) (now : Nat) :
    TState → Db → TState × Db
  | .start, db => (.validated (validate_refresh_token db tok now), db)
  | .validated (.rejected _), db => (.done .invalidToken, db)
  | .validated (.ok u jti), db =>
      let db1 := revoke_refresh_token db jti
      let tks := generate_tokens u newJti now
      let db2 := store_refresh_token db1 u newJti none none
      let db3 := update_last_login db2 u now
      (.done (.success tks.1 tks.2), db3)
  | .done r, db => (.done r, db)

/-- Runs two concurrent refresh requests presenting the same token under
an explicit schedule: true steps the first request, false the second. -/
def run_schedule (tok : RefreshTok) (j1 j2 : String) (now : Nat) :
    List Bool → TState × TState × Db → TState × TState × Db
  | [], s => s
  | b :: rest, (s1, s2, db) =>
      if b then
        let p := thread_step tok j1 now s1 db
        run_schedule tok j1 j2 now rest (p.1, s2, p.2)
      else
        let p := thread_step tok j2 now s2 db
        run_schedule tok j1 j2 now rest (s1, p.1, p.2)

/-- Whether an in-flight refresh request has finished with new tokens. -/
def got_new_tokens : TState → Bool
  | .done (.success _ _) => true
  | _ => false

/-- Concrete fixture: an active user with a pending reset token that
expires at time 50. -/
def u_alice : User :=
  { id := 1, email := "a@x.com", username := "alice",
    password_hash := hash_password "Secr3t!23", is_active := true,
    password_reset_token := some "tk", password_reset_expires_at := some 50,
    last_login := none, roles := ["user"] }

/-- Concrete fixture: a deactivated user. -/
def u_bob : User :=
  { id := 2, email := "b@x.com", username := "bob",
    password_hash := hash_password "BobPass!99", is_active := false,
    password_reset_token := none, password_reset_expires_at := none,
    last_login := none, roles := ["user"] }

/-- Concrete fixture: an unrevoked refresh record of the first user. -/
def rec_j1 : RefreshTokenRecord :=
  { jti := "j1", user_id := 1, user_agent := none, ip_address := none,
    is_revoked := false }

/-- Concrete fixture: a second unrevoked refresh record of the first
user, from another session. -/
def rec_j2 : RefreshTokenRecord :=
  { jti := "j2", user_id := 1, user_agent := none, ip_address := none,
    is_revoked := false }

/-- Concrete fixture: a store with one user and one live session. -/
def db_one : Db :=
  { users := [u_alice], refresh_tokens := [rec_j1], roles := [] }

/-- Concrete fixture: a store with an active and an inactive user and two
live sessions of the first user. -/
def db_two : Db :=
  { users := [u_alice, u_bob], refresh_tokens := [rec_j1, rec_j2], roles := [] }

/-- Concrete fixture: an empty store, as before bootstrap. -/
def db_empty : Db :=
  { users := [], refresh_tokens := [], roles := [] }

/-- Concrete fixture: the signed refresh token correlated with the first
session record, far from expiry at the times used below. -/
def tok_j1 : RefreshTok :=
  { jti := "j1", user_id := 1, exp := 1000 }

/-- Concrete fixture: the access token minted by the first rotation of
the session fixture. -/
def c4_access : AccessTok :=
  (generate_tokens u_alice "n1" 100).1

/-- Concrete fixture: the refresh token minted by the first rotation of
the session fixture. -/
def c4_refresh : RefreshTok :=
  (generate_tokens u_alice "n1" 100).2

/-- Concrete fixture: the store after the first successful rotation of
the session fixture. -/
def c4_db1 : Db :=
  (refresh_route db_one (some tok_j1) "n1" 100 none none).2

/-- Concrete fixture: the store after a successful password reset of the
first user at time 40. -/
def c2_db1 : Db :=
  (reset_password_route db_two "tk" "GoodPass999" 40).2

/-- C1: the source interleaves the validate read and the revoke write as
separate store calls with no lock or conditional update, so two
concurrent rotations of the same refresh token can both read the record
as unrevoked and both return fresh tokens: under the schedule
validate-validate-commit-commit both requests succeed, whereas the claim
demands that exactly one succeed and the other receive AlreadyRevoked
(which only the serial schedule delivers, as the last two conjuncts
show). -/
theorem c1_concurrent_rotate_double_success :
    got_new_tokens (run_schedule tok_j1 "n1" "n2" 100 [true, false, true, false]
        (.start, .start, db_one)).1 = true ∧
    got_new_tokens (run_schedule tok_j1 "n1" "n2" 100 [true, false, true, false]
        (.start, .start, db_one)).2.1 = true ∧
    (run_schedule tok_j1 "n1" "n2" 100 [true, true, false, false]
        (.start, .start, db_one)).2.1 = .done .invalidToken ∧
    validate_refresh_token (run_schedule tok_j1 "n1" "n2" 100 [true, true]
        (.start, .start, db_one)).2.2 tok_j1 100 = .rejected .alreadyRevoked := by
  decide

/-- C3: the reset cascade is all-or-nothing: every execution of the
reset route, with or without a fault before the single commit, either
leaves the store exactly unchanged or succeeds and applies the full
commit (new hash, cleared token and expiry, all refresh records of the
matched user revoked) in one step. -/
theorem c3_reset_cascade_atomic (db : Db) (t pw : String) (now : Nat)
    (fault : Bool) :
    (reset_password_route_f db t pw now fault).2 = db ∨
    ((reset_password_route_f db t pw now fault).1 = .success ∧ fault = false ∧
      ∃ u, find_user_by_reset_token db t = some u ∧
        (reset_password_route_f db t pw now fault).2 = commit_reset db u pw) := by
  unfold reset_password_route_f
  split
  · exact Or.inl rfl
  · split
    · exact Or.inl rfl
    · split
      · exact Or.inl rfl
      · next u heq =>
        split
        · exact Or.inl rfl
        · next e heq2 =>
          split
          · exact Or.inl rfl
          · split
            · exact Or.inl rfl
            · next hfault =>
              exact Or.inr ⟨rfl, by simpa using hfault, u, heq, rfl⟩

/-- C5: the claim fails on the code: the route validates password
strength before looking up the reset token, so an unknown token together
with a weak password is rejected as WeakPassword, not InvalidToken. -/
theorem c5_counterexample :
    find_user_by_reset_token db_two "zz" = none ∧
    (validate_password "a").1 = false ∧
    (reset_password_route db_two "zz" "a" 100).1 =
      ResetResult.weakPassword "Password must be at least 8 characters long" ∧
    (reset_password_route db_two "zz" "a" 100).1 ≠ ResetResult.invalidToken := by
  decide

/-- C5 amended: password-strength validation precedes the token lookup;
for every request with nonempty fields whose new password the validator
rejects, the result is the WeakPassword rejection with the validator's
reason, whatever the token, and the store is unchanged. -/
theorem c5_amended_strength_checked_first (db : Db) (t pw : String) (now : Nat)
    (ht : t ≠ "") (hpw : pw ≠ "") (hweak : (validate_password pw).1 = false) :
    reset_password_route db t pw now = (.weakPassword (validate_password pw).2, db) := by
  simp [reset_password_route, reset_password_route_f, ht, hpw, hweak]

/-- C5 amended, witnessed at a concrete weak-password request with an
unknown token. -/
theorem c5_amended_witness :
    reset_password_route db_two "qq" "abc" 7 =
      (.weakPassword "Password must be at least 8 characters long", db_two) :=
  c5_amended_strength_checked_first db_two "qq" "abc" 7
    (by decide) (by decide) (by decide)

/-- C8: the claim fails on the code: because strength validation runs
before the token lookup, a request whose token matches a user with a past
expiry but whose new password is weak is rejected as WeakPassword, not
ExpiredToken, so the rejection is not exactly characterised by the expiry
condition. -/
theorem c8_counterexample :
    find_user_by_reset_token db_two "tk" = some u_alice ∧
    u_alice.password_reset_expires_at = some 50 ∧ 50 < 100 ∧
    (reset_password_route db_two "tk" "a" 100).1 =
      ResetResult.weakPassword "Password must be at least 8 characters long" ∧
    (reset_password_route db_two "tk" "a" 100).1 ≠ ResetResult.expiredToken := by
  decide

/-- C8 amended: for every request with nonempty fields whose new password
the validator accepts, complete_reset rejects with ExpiredToken exactly
when the token matches a user whose reset expiry is null or lies strictly
in the past at evaluation time. -/
theorem c8_amended_expiry_check (db : Db) (t pw : String) (now : Nat)
    (ht : t ≠ "") (hpw : pw ≠ "") (hstrong : (validate_password pw).1 = true) :
    ((reset_password_route db t pw now).1 = ResetResult.expiredToken ↔
      ∃ u, find_user_by_reset_token db t = some u ∧
        (u.password_reset_expires_at = none ∨
          ∃ e, u.password_reset_expires_at = some e ∧ e < now)) := by
  cases hfind : find_user_by_reset_token db t with
  | none =>
    simp [reset_password_route, reset_password_route_f, ht, hpw, hstrong, hfind]
  | some u =>
    cases hexp : u.password_reset_expires_at with
    | none =>
      simp [reset_password_route, reset_password_route_f, ht, hpw, hstrong,
        hfind, hexp]
    | some e =>
      by_cases hlt : e < now
      · simp [reset_password_route, reset_password_route_f, ht, hpw, hstrong,
          hfind, hexp, hlt]
      · simp [reset_password_route, reset_password_route_f, ht, hpw, hstrong,
          hfind, hexp, hlt]

/-- C8 amended, witnessed at a concrete strong-password request whose
token matches the user with the past expiry. -/
theorem c8_amended_witness :
    ((reset_password_route db_two "tk" "GoodPass999" 100).1 =
        ResetResult.expiredToken ↔
      ∃ u, find_user_by_reset_token db_two "tk" = some u ∧
        (u.password_reset_expires_at = none ∨
          ∃ e, u.password_reset_expires_at = some e ∧ e < 100)) :=
  c8_amended_expiry_check db_two "tk" "GoodPass999" 100
    (by decide) (by decide) (by decide)

/-- C6: the claim fails on the code: within the reset route, an unknown
token and an expired token produce different user-visible messages, so
token-validation failures do not all surface as one generic message. -/
theorem c6_counterexample :
    find_user_by_reset_token db_two "zz" = none ∧
    find_user_by_reset_token db_two "tk" = some u_alice ∧
    reset_msg (reset_password_route db_two "zz" "GoodPass999" 100).1 =
      some "Invalid or expired token" ∧
    reset_msg (reset_password_route db_two "tk" "GoodPass999" 100).1 =
      some "Reset token has expired" ∧
    reset_msg (reset_password_route db_two "zz" "GoodPass999" 100).1 ≠
      reset_msg (reset_password_route db_two "tk" "GoodPass999" 100).1 := by
  decide

/-- C6 amended: the uniform-generic-message property holds within login
and within rotation, but not within complete_reset: every failed login
authentication (unknown email, inactive account or wrong password) yields
the one message of the 401 site, and every rejected rotation (expired or
malformed, unknown, already revoked) yields the one message of its 401
site; complete_reset distinguishes unknown from expired tokens as the
counterexample shows. -/
theorem c6_amended_generic_within_login_and_rotate :
    (∀ (db : Db) (email pw jti : String) (now : Nat) (ua ip : Option String),
      email ≠ "" → pw ≠ "" →
      ((get_user_by_email db email).all fun u =>
        !u.is_active || !verify_password pw u.password_hash) = true →
      login_msg (login_route db email pw jti now ua ip).1 =
        some "Invalid credentials") ∧
    (∀ (db : Db) (tok : RefreshTok) (jti : String) (now : Nat)
        (ua ip : Option String) (r : RotateReject),
      validate_refresh_token db tok now = .rejected r →
      refresh_msg (refresh_route db (some tok) jti now ua ip).1 =
        some "Invalid or expired refresh token") := by
  constructor
  · intro db email pw jti now ua ip he hp hfail
    cases hfind : get_user_by_email db email with
    | none => simp [login_route, login_msg, he, hp, hfind]
    | some u =>
      rw [hfind] at hfail
      simp only [Option.all_some, Bool.or_eq_true, Bool.not_eq_true'] at hfail
      rcases hfail with hin | hvp
      · simp [login_route, login_msg, he, hp, hfind, hin]
      · by_cases hact : u.is_active = true
        · simp [login_route, login_msg, he, hp, hfind, hact, hvp]
        · simp only [Bool.not_eq_true] at hact
          simp [login_route, login_msg, he, hp, hfind, hact]
  · intro db tok jti now ua ip r hval
    simp [refresh_route, refresh_msg, hval]

/-- C6 amended, witnessed by a failed login of the inactive user and a
rejected rotation of an unknown jti. -/
theorem c6_amended_witness :
    login_msg (login_route db_two "b@x.com" "BobPass!99" "n9" 5 none none).1 =
      some "Invalid credentials" ∧
    refresh_msg (refresh_route db_two
        (some { jti := "zz", user_id := 9, exp := 1000 }) "n9" 5 none none).1 =
      some "Invalid or expired refresh token" :=
  ⟨c6_amended_generic_within_login_and_rotate.1 db_two "b@x.com" "BobPass!99"
      "n9" 5 none none (by decide) (by decide) (by decide),
   c6_amended_generic_within_login_and_rotate.2 db_two
      { jti := "zz", user_id := 9, exp := 1000 } "n9" 5 none none
      .unknown (by decide)⟩

/-- C10: a login whose email resolves to a deactivated user is rejected
with the same generic invalid-credentials response (the 401 site) that a
nonexistent email produces, the store is unchanged, and the password is
never consulted: the response is identical for any other supplied
password. -/
theorem c10_inactive_login_generic (db : Db)
    (email email2 pw pw2 pw3 jti : String) (now : Nat) (ua ip : Option String)
    (u : User) (he : email ≠ "") (hp : pw ≠ "") (he2 : email2 ≠ "")
    (hp2 : pw2 ≠ "") (hp3 : pw3 ≠ "")
    (hu : get_user_by_email db email = some u) (hinact : u.is_active = false)
    (hnone : get_user_by_email db email2 = none) :
    login_route db email pw jti now ua ip = (.invalidCredentials, db) ∧
    login_route db email pw jti now ua ip =
      login_route db email2 pw2 jti now ua ip ∧
    login_route db email pw jti now ua ip =
      login_route db email pw3 jti now ua ip := by
  have h1 : login_route db email pw jti now ua ip = (.invalidCredentials, db) := by
    simp [login_route, he, hp, hu, hinact]
  have h2 : login_route db email2 pw2 jti now ua ip = (.invalidCredentials, db) := by
    simp [login_route, he2, hp2, hnone]
  have h3 : login_route db email pw3 jti now ua ip = (.invalidCredentials, db) := by
    simp [login_route, he, hp3, hu, hinact]
  exact ⟨h1, h1.trans h2.symm, h1.trans h3.symm⟩

/-- C10, witnessed by the deactivated fixture user versus an unknown
email and a second arbitrary password. -/
theorem c10_witness :
    login_route db_two "b@x.com" "BobPass!99" "n3" 5 none none =
      (.invalidCredentials, db_two) ∧
    login_route db_two "b@x.com" "BobPass!99" "n3" 5 none none =
      login_route db_two "nobody@x.com" "Whatever1!" "n3" 5 none none ∧
    login_route db_two "b@x.com" "BobPass!99" "n3" 5 none none =
      login_route db_two "b@x.com" "zzz" "n3" 5 none none :=
  c10_inactive_login_generic db_two "b@x.com" "nobody@x.com" "BobPass!99"
    "Whatever1!" "zzz" "n3" 5 none none u_bob (by decide) (by decide)
    (by decide) (by decide) (by decide) (by decide) (by decide) (by decide)

/-- A map that preserves the jti field commutes with the find-by-jti
lookup. -/
theorem find?_jti_map (f : RefreshTokenRecord → RefreshTokenRecord)
    (hf : ∀ r, (f r).jti = r.jti) (l : List RefreshTokenRecord) (j : String) :
    (l.map f).find? (fun r => r.jti == j) =
      Option.map f (l.find? (fun r => r.jti == j)) := by
  rw [List.find?_map]
  have hp : ((fun r : RefreshTokenRecord => r.jti == j) ∘ f) =
      (fun r : RefreshTokenRecord => r.jti == j) := by
    funext r
    simp [Function.comp, hf]
  rw [hp]

/-- A found refresh record carries the jti it was looked up by. -/
theorem find_refresh_record_some {db : Db} {j : String}
    {r : RefreshTokenRecord} (h : find_refresh_record db j = some r) :
    r.jti = j := by
  unfold find_refresh_record at h
  have := List.find?_some h
  simpa using this

/-- Revoking a jti rewrites exactly the looked-up record's revoked
flag. -/
theorem find_refresh_record_revoke (db : Db) (j : String) :
    find_refresh_record (revoke_refresh_token db j) j =
      Option.map (fun r => if r.jti == j then { r with is_revoked := true } else r)
        (find_refresh_record db j) := by
  unfold find_refresh_record revoke_refresh_token
  exact find?_jti_map _ (fun r => by by_cases h : r.jti == j <;> simp [h]) _ j

/-- Appending a fresh record does not change the result of a lookup that
already finds one. -/
theorem find_refresh_record_store {db : Db} {j : String}
    {r : RefreshTokenRecord} (u : User) (j1 : String) (ua ip : Option String)
    (h : find_refresh_record db j = some r) :
    find_refresh_record (store_refresh_token db u j1 ua ip) j = some r := by
  unfold find_refresh_record store_refresh_token at *
  rw [List.find?_append, h]
  rfl

/-- Stamping last login does not touch the refresh records. -/
theorem find_refresh_record_update_last_login (db : Db) (u : User)
    (now : Nat) (j : String) :
    find_refresh_record (update_last_login db u now) j =
      find_refresh_record db j := rfl

/-- Inversion of a successful refresh-token validation: the engine found
the embedded jti unrevoked and resolved its owner, and the token is not
structurally expired. -/
theorem validate_ok_inv {db : Db} {tok : RefreshTok} {now : Nat} {u : User}
    {jti : String} (h : validate_refresh_token db tok now = .ok u jti) :
    jti = tok.jti ∧ ¬ tok.exp < now ∧
      ∃ rec, find_refresh_record db tok.jti = some rec ∧
        rec.is_revoked = false ∧ find_user_by_id db rec.user_id = some u := by
  unfold validate_refresh_token at h
  split at h
  · exact absurd h (by simp)
  · next hexp =>
    split at h
    · exact absurd h (by simp)
    · next rec heq =>
      split at h
      · exact absurd h (by simp)
      · next hrev =>
        split at h
        · exact absurd h (by simp)
        · next u0 hu =>
          injection h with h1 h2
          subst h1
          exact ⟨h2.symm, hexp, rec, heq, by simpa using hrev, hu⟩

/-- C4: for every successful rotation, the presented token's stored
record is revoked in the resulting store (even before the appended fresh
record could be consulted, since the lookup scans the original record
first), the engine classifies an immediate resubmission of the same token
as AlreadyRevoked, and the route rejects that resubmission with its
generic 401 while leaving the store unchanged - so a given refresh token
rotates at most once. -/
theorem c4_rotate_single_use (db : Db) (tok : RefreshTok) (j1 j2 : String)
    (now : Nat) (ua ip ua2 ip2 : Option String) (a : AccessTok)
    (rt : RefreshTok) (db1 : Db)
    (h : refresh_route db (some tok) j1 now ua ip = (.success a rt, db1)) :
    (find_refresh_record db1 tok.jti).map RefreshTokenRecord.is_revoked =
      some true ∧
    validate_refresh_token db1 tok now = .rejected .alreadyRevoked ∧
    refresh_route db1 (some tok) j2 now ua2 ip2 = (.invalidToken, db1) := by
  unfold refresh_route at h
  dsimp only at h
  cases hval : validate_refresh_token db tok now with
  | rejected r =>
    rw [hval] at h
    exact absurd h (by simp)
  | ok u jti =>
    rw [hval] at h
    simp only [Prod.mk.injEq] at h
    obtain ⟨-, hdb⟩ := h
    obtain ⟨hj, hexp, rec, hfind, hrev, hu⟩ := validate_ok_inv hval
    subst hj
    subst hdb
    have hbeq : (rec.jti == tok.jti) = true := by
      simp [find_refresh_record_some hfind]
    have hfind1 :
        find_refresh_record
          (update_last_login
            (store_refresh_token (revoke_refresh_token db tok.jti) u j1 ua ip)
            u now) tok.jti = some { rec with is_revoked := true } := by
      rw [find_refresh_record_update_last_login]
      apply find_refresh_record_store
      rw [find_refresh_record_revoke, hfind]
      exact congrArg some (if_pos hbeq)
    have hv1 :
        validate_refresh_token
          (update_last_login
            (store_refresh_token (revoke_refresh_token db tok.jti) u j1 ua ip)
            u now) tok now = .rejected .alreadyRevoked := by
      unfold validate_refresh_token
      rw [if_neg hexp, hfind1]
      simp
    refine ⟨?_, hv1, ?_⟩
    · rw [hfind1]
      rfl
    · unfold refresh_route
      dsimp only
      rw [hv1]

/-- C4, witnessed on the one-session fixture: after the first rotation
succeeds, the stored record of jti j1 is revoked, the engine reports
AlreadyRevoked, and the immediate resubmission is rejected. -/
theorem c4_witness :
    (find_refresh_record c4_db1 tok_j1.jti).map RefreshTokenRecord.is_revoked =
      some true ∧
    validate_refresh_token c4_db1 tok_j1 100 = .rejected .alreadyRevoked ∧
    refresh_route c4_db1 (some tok_j1) "n2" 100 none none =
      (.invalidToken, c4_db1) :=
  c4_rotate_single_use db_one tok_j1 "n1" "n2" 100 none none none none
    c4_access c4_refresh c4_db1 (by decide)

/-- When the stored jtis are pairwise distinct, looking a member record
up by its own jti returns exactly that record. -/
theorem find?_jti_of_pairwise {l : List RefreshTokenRecord}
    {r : RefreshTokenRecord}
    (hnd : l.Pairwise (fun a b => a.jti ≠ b.jti)) (hr : r ∈ l) :
    l.find? (fun x => x.jti == r.jti) = some r := by
  induction l with
  | nil => cases hr
  | cons a t ih =>
    rcases List.mem_cons.mp hr with rfl | hrt
    · simp [List.find?_cons]
    · have hne : a.jti ≠ r.jti := (List.pairwise_cons.mp hnd).1 r hrt
      have hbeq : (a.jti == r.jti) = false := by simp [hne]
      rw [List.find?_cons, hbeq]
      exact ih (List.pairwise_cons.mp hnd).2 hrt

/-- Inversion of a successful reset: some user matched the token and the
resulting store is exactly the committed cascade. -/
theorem reset_success_inv {db : Db} {t pw : String} {now : Nat} {db1 : Db}
    (h : reset_password_route db t pw now = (.success, db1)) :
    ∃ u, find_user_by_reset_token db t = some u ∧
      db1 = commit_reset db u pw := by
  unfold reset_password_route reset_password_route_f at h
  split at h
  · exact absurd h (by simp)
  · split at h
    · exact absurd h (by simp)
    · split at h
      · exact absurd h (by simp)
      · next u heq =>
        split at h
        · exact absurd h (by simp)
        · next e heq2 =>
          split at h
          · exact absurd h (by simp)
          · split at h
            · exact absurd h (by simp)
            · simp only [Prod.mk.injEq] at h
              exact ⟨u, heq, h.2.symm⟩

/-- C2: whenever the reset route succeeds, every refresh record owned by
the matched user is revoked in the resulting store, and (with pairwise
distinct stored jtis) every refresh token previously issued to that user
is afterwards classified AlreadyRevoked by the rotation engine and
rejected by the refresh route with its generic 401 and no store
change. -/
theorem c2_reset_revokes_all_sessions (db : Db) (t pw : String) (now : Nat)
    (db1 : Db)
    (hnd : db.refresh_tokens.Pairwise (fun a b => a.jti ≠ b.jti))
    (h : reset_password_route db t pw now = (.success, db1)) :
    ∃ u, find_user_by_reset_token db t = some u ∧
      (∀ r ∈ db1.refresh_tokens, r.user_id = u.id → r.is_revoked = true) ∧
      (∀ r ∈ db.refresh_tokens, r.user_id = u.id → ∀ tok : RefreshTok,
        tok.jti = r.jti → ¬ tok.exp < now →
          validate_refresh_token db1 tok now = .rejected .alreadyRevoked ∧
          ∀ (j2 : String) (ua ip : Option String),
            refresh_route db1 (some tok) j2 now ua ip = (.invalidToken, db1)) := by
  obtain ⟨u, hu, hdb1⟩ := reset_success_inv h
  subst hdb1
  refine ⟨u, hu, ?_, ?_⟩
  · intro r hr hrid
    have hr2 : r ∈ db.refresh_tokens.map (fun x =>
        if x.user_id == u.id then { x with is_revoked := true } else x) := hr
    obtain ⟨r0, hr0, hfr⟩ := List.mem_map.mp hr2
    by_cases h0 : (r0.user_id == u.id) = true
    · rw [if_pos h0] at hfr
      subst hfr
      rfl
    · rw [if_neg h0] at hfr
      subst hfr
      exact absurd hrid (by simpa using h0)
  · intro r hr hrid tok hjti hexp2
    have hbeq : (r.user_id == u.id) = true := by simp [hrid]
    have hgr : find_refresh_record (commit_reset db u pw) tok.jti =
        some { r with is_revoked := true } := by
      unfold find_refresh_record commit_reset
      dsimp only
      rw [hjti]
      rw [find?_jti_map _
        (fun x => by by_cases hx : (x.user_id == u.id) = true <;> simp [hx]) _ r.jti]
      rw [find?_jti_of_pairwise hnd hr]
      exact congrArg some (if_pos hbeq)
    have hv : validate_refresh_token (commit_reset db u pw) tok now =
        .rejected .alreadyRevoked := by
      unfold validate_refresh_token
      rw [if_neg hexp2, hgr]
      simp
    refine ⟨hv, ?_⟩
    intro j2 ua ip
    unfold refresh_route
    dsimp only
    rw [hv]

/-- C2, witnessed on the two-session fixture: after the successful reset
at time 40 both of the user's records are revoked and both previously
issued refresh tokens fail rotation with AlreadyRevoked. -/
theorem c2_witness :
    ∃ u, find_user_by_reset_token db_two "tk" = some u ∧
      (∀ r ∈ c2_db1.refresh_tokens, r.user_id = u.id → r.is_revoked = true) ∧
      (∀ r ∈ db_two.refresh_tokens, r.user_id = u.id → ∀ tok : RefreshTok,
        tok.jti = r.jti → ¬ tok.exp < 40 →
          validate_refresh_token c2_db1 tok 40 = .rejected .alreadyRevoked ∧
          ∀ (j2 : String) (ua ip : Option String),
            refresh_route c2_db1 (some tok) j2 40 ua ip =
              (.invalidToken, c2_db1)) :=
  c2_reset_revokes_all_sessions db_two "tk" "GoodPass999" 40 c2_db1
    (by decide) (by decide)

/-- C9: the claim fails on the code: the register handler only checks the
email for duplication, so a request whose username already belongs to an
existing user but whose email is fresh is not rejected with the conflict
error; it reaches the store insert, whose uniqueness constraint makes it
fail as an unhandled store error instead. -/
theorem c9_counterexample :
    (∃ u ∈ db_one.users, u.username = "alice") ∧
    (validate_registration_data "new@x.com" "alice" "GoodPass999").1 = true ∧
    register_route db_one "new@x.com" "alice" "GoodPass999" =
      (.storeFailure, db_one) ∧
    RegisterResult.storeFailure ≠ RegisterResult.userExists := by
  decide

/-- C9 amended: for every well-formed registration request, a duplicate
email is rejected with the conflict error ("User already exists") and no
user is created; a duplicate username with a fresh email is not checked
by the handler and surfaces as a store-level failure - in both cases the
store is unchanged, but only the email duplicate receives the conflict
rejection. -/
theorem c9_amended_register_uniqueness (db : Db) (email username pw : String)
    (hv : (validate_registration_data email username pw).1 = true) :
    ((∃ u ∈ db.users, u.email = email) →
      register_route db email username pw = (.userExists, db)) ∧
    ((∀ u ∈ db.users, u.email ≠ email) →
      (∃ u ∈ db.users, u.username = username) →
      register_route db email username pw = (.storeFailure, db)) := by
  constructor
  · rintro ⟨u, hu, he⟩
    have hfind : (get_user_by_email db email).isSome := by
      unfold get_user_by_email
      rw [List.find?_isSome]
      exact ⟨u, hu, by simp [he]⟩
    obtain ⟨u0, hu0⟩ := Option.isSome_iff_exists.mp hfind
    simp [register_route, hv, hu0]
  · intro hall
    rintro ⟨u, hu, hun⟩
    have hnone : get_user_by_email db email = none := by
      unfold get_user_by_email
      rw [List.find?_eq_none]
      intro x hx
      simp [hall x hx]
    have hins : insert_user db email username pw = Except.error () := by
      unfold insert_user
      rw [if_pos]
      rw [List.any_eq_true]
      exact ⟨u, hu, by simp [hun]⟩
    simp [register_route, hv, hnone, hins]

/-- C9 amended, witnessed by a duplicate-email request and a
duplicate-username request against the two-user fixture. -/
theorem c9_amended_witness :
    register_route db_two "a@x.com" "fresh_name" "GoodPass999" =
      (.userExists, db_two) ∧
    register_route db_two "c@x.com" "alice" "GoodPass999" =
      (.storeFailure, db_two) :=
  ⟨(c9_amended_register_uniqueness db_two "a@x.com" "fresh_name" "GoodPass999"
      (by decide)).1 (by decide),
   (c9_amended_register_uniqueness db_two "c@x.com" "alice" "GoodPass999"
      (by decide)).2 (by decide) (by decide)⟩

/-- The user inserted by a successful store insert carries the fresh
id. -/
theorem insert_user_ok_id {db : Db} {email username pw : String} {u1 : User}
    {db1 : Db} (h : insert_user db email username pw = .ok (u1, db1)) :
    u1.id = next_id db := by
  unfold insert_user at h
  split at h
  · exact absurd h (by simp)
  · simp only [Except.ok.injEq, Prod.mk.injEq] at h
    rw [← h.1]

/-- The registration validator only ever emits its fixed messages. -/
theorem validate_registration_data_msgs (email username pw : String) :
    (validate_registration_data email username pw).2 ⊆
      ["Email is required", "Username is required", "Password is required"] := by
  unfold validate_registration_data
  dsimp only
  split_ifs <;> simp [List.subset_def]

/-- C7: the claim fails on the code: the init-admin route returns the
supplied (or default) plaintext password inside the credentials object of
its creation response. -/
theorem c7_counterexample :
    (init_admin_route db_empty "k" "k" none none (some "Hunter2Secret!")).1 =
      InitAdminResult.adminCreated "1" "admin@example.com" "Hunter2Secret!" ∧
    "Hunter2Secret!" ∈ init_admin_strings
      (init_admin_route db_empty "k" "k" none none (some "Hunter2Secret!")).1 := by
  decide

/-- C7 amended: every operation except init_admin keeps the supplied
plaintext out of its response: as long as the password is not itself one
of the fixed payload literals, not a stored profile string, not the fresh
id and not the fresh jti, the register, login and reset responses never
contain it; init_admin's creation response does contain it, as the
counterexample shows. -/
theorem c7_amended_no_plaintext_outside_init_admin
    (db : Db) (email username pw t jti : String) (now : Nat)
    (ua ip : Option String)
    (hlit : pw ∉ ["Email and password are required", "Invalid credentials",
      "access_token", "refresh_token", "Email is required",
      "Username is required", "Password is required", "User already exists",
      "User created successfully", "Token and new password are required",
      "Invalid or expired token", "Reset token has expired",
      "Password has been reset successfully",
      "An error occurred processing your request",
      "Password must be at least 8 characters long"])
    (hdb : ∀ u ∈ db.users, pw ≠ u.username ∧ pw ≠ u.email ∧
      pw ≠ toString u.id ∧ pw ∉ u.roles)
    (hjti : pw ≠ jti)
    (hfresh : pw ≠ toString (next_id db)) :
    pw ∉ register_strings (register_route db email username pw).1 ∧
    pw ∉ login_strings (login_route db email pw jti now ua ip).1 ∧
    pw ∉ reset_strings (reset_password_route db t pw now).1 := by
  simp only [List.mem_cons, List.not_mem_nil, or_false, not_or] at hlit
  obtain ⟨hA, hB, hC, hD, hE, hF, hG, hH, hI, hJ, hK, hL, hM, hN, hO⟩ := hlit
  refine ⟨?_, ?_, ?_⟩
  · -- register response
    by_cases hval : (validate_registration_data email username pw).1 = true
    · cases hfind : get_user_by_email db email with
      | some u0 =>
        simp [register_route, register_strings, hval, hfind, hH]
      | none =>
        cases hins : insert_user db email username pw with
        | error e =>
          simp [register_route, register_strings, hval, hfind, hins]
        | ok p =>
          have hid : p.1.id = next_id db := insert_user_ok_id hins
          simp [register_route, register_strings, hval, hfind, hins, hI]
          rw [hid]
          exact hfresh
    · intro hmem
      have hm2 : pw ∈ (validate_registration_data email username pw).2 := by
        simpa [register_route, register_strings, hval] using hmem
      have h3 := validate_registration_data_msgs email username pw hm2
      simp only [List.mem_cons, List.not_mem_nil, or_false] at h3
      rcases h3 with h | h | h
      exacts [hE h, hF h, hG h]
  · -- login response
    by_cases hmf : (email == "" || pw == "") = true
    · simp [login_route, login_strings, hmf, hA]
    · cases hfind : get_user_by_email db email with
      | none => simp [login_route, login_strings, hmf, hfind, hB]
      | some u0 =>
        have hmem : u0 ∈ db.users := by
          unfold get_user_by_email at hfind
          exact List.mem_of_find?_eq_some hfind
        obtain ⟨hn1, hn2, hn3, hn4⟩ := hdb u0 hmem
        by_cases hact : u0.is_active = true
        · by_cases hvp : verify_password pw u0.password_hash = true
          · simp [login_route, login_strings, generate_tokens, hmf, hfind,
              hact, hvp, hC, hD, hn1, hn2, hn3, hn4, hjti]
          · simp [login_route, login_strings, hmf, hfind, hact, hvp, hB]
        · simp [login_route, login_strings, hmf, hfind, hact, hB]
  · -- reset response
    by_cases hmf2 : (t == "" || pw == "") = true
    · simp [reset_password_route, reset_password_route_f, reset_strings,
        reset_msg, hmf2, hJ]
    · by_cases hlen : pw.length < 8
      · simp [reset_password_route, reset_password_route_f, validate_password,
          reset_strings, reset_msg, hmf2, hlen, hO]
      · cases hfind2 : find_user_by_reset_token db t with
        | none =>
          simp [reset_password_route, reset_password_route_f, validate_password,
            reset_strings, reset_msg, hmf2, hlen, hfind2, hK]
        | some u1 =>
          cases hexp : u1.password_reset_expires_at with
          | none =>
            simp [reset_password_route, reset_password_route_f,
              validate_password, reset_strings, reset_msg, hmf2, hlen, hfind2,
              hexp, hL]
          | some e =>
            by_cases hlt : e < now
            · simp [reset_password_route, reset_password_route_f,
                validate_password, reset_strings, reset_msg, hmf2, hlen,
                hfind2, hexp, hlt, hL]
            · simp [reset_password_route, reset_password_route_f,
                validate_password, reset_strings, reset_msg, hmf2, hlen,
                hfind2, hexp, hlt, hM]

/-- C7 amended, witnessed with a fresh password against the two-user
fixture: a registration, a login attempt and a reset all keep the
plaintext out of the response. -/
theorem c7_amended_witness :
    "S3cretZZ9!" ∉ register_strings
      (register_route db_two "c@x.com" "carol" "S3cretZZ9!").1 ∧
    "S3cretZZ9!" ∉ login_strings
      (login_route db_two "a@x.com" "S3cretZZ9!" "n7" 5 none none).1 ∧
    "S3cretZZ9!" ∉ reset_strings
      (reset_password_route db_two "tk" "S3cretZZ9!" 5).1 :=
  c7_amended_no_plaintext_outside_init_admin db_two "c@x.com" "carol"
    "S3cretZZ9!" "tk" "n7" 5 none none
    (by decide) (by decide) (by decide) (by decide)
